import Mathlib

/-!
Verification of the QA Web-based Testing Agent pipeline orchestrator.

This file gives a shallow embedding, in Lean 4, of the pipeline logic of the
repository (src/services/implementation_service.py, design_service.py,
verification_service.py, src/utils/helpers.py and the Flask route handlers of
src/main.py), and proves properties of that embedding.

Modelling conventions:
  * Python strings are Lean `String`s; character-level work is done on
    `List Char` (`String.data`).  The inputs of interest are ASCII, so
    Python's Unicode-aware `\w`, `\s` and `str.strip()` are embedded by their
    ASCII behaviour.
  * Each concrete regular expression of the source is embedded as a dedicated
    matching function.  All the regexes involved are backtracking-free except
    for lazy quantifiers and optional items, because adjacent subpatterns use
    disjoint character classes; the embedding follows the actual leftmost
    match semantics of `re.sub` / `re.search` / `re.finditer`, continuing
    after the end of each match.
  * External collaborators (the LLM call, Python's `ast.parse`, `json.loads`,
    the pytest subprocess, the file system and the clock) are parameters
    (oracles) of the embedded functions.  An oracle result of `none` /
    `Except.error` models the collaborator raising an exception.
  * Python numbers that are floats in the source (response times, durations)
    are modelled exactly as rationals; token counts are naturals.
-/

/-- Python whitespace (`\s`, `str.strip()` default), ASCII fragment:
space, tab, newline, carriage return, form feed, vertical tab. -/
def isPySpace (c : Char) : Bool :=
  c = ' ' || c = '\t' || c = '\n' || c = '\x0d' || c = '\x0c' || c = '\x0b'

/-- Python word character (`\w`), ASCII fragment: letters, digits, underscore. -/
def isWordChar (c : Char) : Bool :=
  c.isAlpha || c.isDigit || c = '_'

/-- `startsWithL pat s` : `pat` is a prefix of `s`. -/
def startsWithL : List Char → List Char → Bool
  | [], _ => true
  | _ :: _, [] => false
  | p :: ps, c :: cs => p == c && startsWithL ps cs

/-- Case-insensitive prefix test (for regexes compiled with `re.IGNORECASE`). -/
def ciStartsWithL : List Char → List Char → Bool
  | [], _ => true
  | _ :: _, [] => false
  | p :: ps, c :: cs => p.toLower == c.toLower && ciStartsWithL ps cs

/-- `containsL needle hay` : `needle` occurs as a contiguous substring of
`hay` (Python's `needle in hay`). -/
def containsL (needle : List Char) : List Char → Bool
  | [] => startsWithL needle []
  | c :: t => startsWithL needle (c :: t) || containsL needle t

/-- Case-insensitive substring occurrence. -/
def ciContainsL (needle : List Char) : List Char → Bool
  | [] => ciStartsWithL needle []
  | c :: t => ciStartsWithL needle (c :: t) || ciContainsL needle t

/-- Python's `needle in hay` on strings. -/
def strContains (hay needle : String) : Bool :=
  containsL needle.data hay.data

/-- Drop a literal prefix, or fail. -/
def dropLit (pat : List Char) (s : List Char) : Option (List Char) :=
  if startsWithL pat s then some (s.drop pat.length) else none

/-- Drop a literal prefix case-insensitively, or fail. -/
def ciDropLit (pat : List Char) (s : List Char) : Option (List Char) :=
  if ciStartsWithL pat s then some (s.drop pat.length) else none

/-- Python `str.lower()` (ASCII fragment, like the inputs). -/
def pyLower (s : String) : String :=
  String.mk (s.data.map Char.toLower)

/-- Python `str.strip()` on the character list (ASCII whitespace). -/
def pyStripL (s : List Char) : List Char :=
  ((s.dropWhile isPySpace).reverse.dropWhile isPySpace).reverse

/-- Python `str.strip()`. -/
def pyStrip (s : String) : String :=
  String.mk (pyStripL s.data)

/-- Python `str.split('\n')` (always returns at least one piece). -/
def splitOnNl : List Char → List (List Char)
  | [] => [[]]
  | c :: t =>
    if c = '\n' then [] :: splitOnNl t
    else
      match splitOnNl t with
      | [] => [[c]]
      | l :: ls => (c :: l) :: ls

/-- Python `'\n'.join`. -/
def joinNl (lines : List (List Char)) : List Char :=
  match lines with
  | [] => []
  | l :: ls => l ++ (ls.map (fun x => '\n' :: x)).flatten

/-- Whether a run of `\s*` characters starting here contains a `'\n'` before
the first non-whitespace character: the condition for `\s*\n` to match when
the deleted tail extends to the end of the string (`.*` with `re.DOTALL`). -/
def hasNlInRun : List Char → Bool
  | [] => false
  | c :: t => if c = '\n' then true else if isPySpace c then hasNlInRun t else false

/-- Consume the maximal whitespace run, returning the last consumed character
(if any) and the rest.  Used for `\s*\n` followed by a non-whitespace literal:
greedy matching forces the literal `\n` to be the last character of the run. -/
def wsRun : List Char → Option Char × List Char
  | [] => (none, [])
  | c :: t =>
    if isPySpace c then
      match wsRun t with
      | (none, r) => (some c, r)
      | (some d, r) => (some d, r)
    else (none, c :: t)

/-- Delete everything from the first position where `trig` fires to the end of
the string: the effect of `re.sub(p, '', s)` for a pattern `p` ending in `.*`
under `re.DOTALL`. -/
def truncAtTrigger (trig : List Char → Bool) : List Char → List Char
  | [] => []
  | c :: t => if trig (c :: t) then [] else c :: truncAtTrigger trig t

/-- `re.sub(p, '', s)` for a general pattern: `m s'` returns the rest of the
input after a match starting at the head of `s'`, if any; scanning resumes at
the end of each deleted match.  All matchers used consume at least one
character, so fuel `s.length + 1` never runs out. -/
def subAllFuel (m : List Char → Option (List Char)) : Nat → List Char → List Char
  | 0, s => s
  | _ + 1, [] => []
  | f + 1, c :: t =>
    match m (c :: t) with
    | some r => subAllFuel m f r
    | none => c :: subAllFuel m f t

/-- First occurrence of the literal `pat`; returns the suffix after it. -/
def findAfterL (pat : List Char) : List Char → Option (List Char)
  | [] => if startsWithL pat [] then some [] else none
  | c :: t =>
    if startsWithL pat (c :: t) then some ((c :: t).drop pat.length)
    else findAfterL pat t

namespace ImplementationService

/-- `MAX_CORRECTION_ATTEMPTS` (src/services/implementation_service.py:31). -/
def MAX_CORRECTION_ATTEMPTS : Nat := 3

/-- A page structure dictionary; only the `url` key is read by the embedded
functions (`page_structure.get('url', ...)`), so only it is modelled.
`none` models an absent key. -/
structure PageStructure where
  url : Option String
deriving DecidableEq

/-- A test case dictionary; only the `title` key is read by the embedded
functions (`tc.get('title', 'Test')`). -/
structure TestCase where
  title : Option String
deriving DecidableEq

/-- Matcher for `re.sub(r'```python|```', '', text)`: the alternation prefers
the longer branch at each position. -/
def fenceMatch (s : List Char) : Option (List Char) :=
  if startsWithL "```python".data s then some (s.drop 9)
  else if startsWithL "```".data s then some (s.drop 3)
  else none

/-- Trigger of `r'\n\s*\*\*How to run\*\*.*'` (IGNORECASE, DOTALL). -/
def trigHowToRunBold (s : List Char) : Bool :=
  match s with
  | '\n' :: t => ciStartsWithL "**how to run**".data (t.dropWhile isPySpace)
  | _ => false

/-- Trigger of `r'\n\s*## How to.*'` (IGNORECASE, DOTALL). -/
def trigHashHowTo (s : List Char) : Bool :=
  match s with
  | '\n' :: t => ciStartsWithL "## how to".data (t.dropWhile isPySpace)
  | _ => false

/-- Trigger of `r'\n\s*# How to run.*'` (IGNORECASE, DOTALL). -/
def trigCommentHowToRun (s : List Char) : Bool :=
  match s with
  | '\n' :: t => ciStartsWithL "# how to run".data (t.dropWhile isPySpace)
  | _ => false

/-- Trigger of `r'\n\s*---\s*\n.*'` (DOTALL): a newline, whitespace, `---`,
then a whitespace run containing another newline. -/
def trigDashes (s : List Char) : Bool :=
  match s with
  | '\n' :: t =>
    match dropLit "---".data (t.dropWhile isPySpace) with
    | some v => hasNlInRun v
    | none => false
  | _ => false

/-- Trigger of `r'\n\s*\*\*Note:?\*\*.*'` (IGNORECASE, DOTALL). -/
def trigNote (s : List Char) : Bool :=
  match s with
  | '\n' :: t =>
    match ciDropLit "**note".data (t.dropWhile isPySpace) with
    | some v => startsWithL ":**".data v || startsWithL "**".data v
    | none => false
  | _ => false

/-- Trigger of `r'\n\s*bash\s*\n.*pip install.*'` (IGNORECASE, DOTALL):
the `pip install` may occur anywhere in the deleted tail. -/
def trigBashPip (s : List Char) : Bool :=
  match s with
  | '\n' :: t =>
    match ciDropLit "bash".data (t.dropWhile isPySpace) with
    | some v => hasNlInRun v && ciContainsL "pip install".data v
    | none => false
  | _ => false

/-- Matcher for `r'\n\s*```bash.*?```'` (IGNORECASE, DOTALL): lazy `.*?`
stops at the first subsequent closing fence. -/
def bashBlockMatch (s : List Char) : Option (List Char) :=
  match s with
  | '\n' :: t =>
    match ciDropLit "```bash".data (t.dropWhile isPySpace) with
    | some v => findAfterL "```".data v
    | none => none
  | _ => none

/-- Matcher for `r'\n\s*```\s*\n.*?```'` (IGNORECASE, DOTALL). -/
def anyBlockMatch (s : List Char) : Option (List Char) :=
  match s with
  | '\n' :: t =>
    match dropLit "```".data (t.dropWhile isPySpace) with
    | some v => if hasNlInRun v then findAfterL "```".data v else none
    | none => none
  | _ => none

/-- The lookahead `(?=\n(?:@|def\s+test_|\Z))` of the fixture-removal
patterns. -/
def fixtureLook (s : List Char) : Bool :=
  match s with
  | '\n' :: v =>
    match v with
    | [] => true
    | '@' :: _ => true
    | _ =>
      match dropLit "def".data v with
      | some w =>
        match w with
        | c :: _ => isPySpace c && startsWithL "test_".data (w.dropWhile isPySpace)
        | [] => false
      | none => false
  | _ => false

/-- The lazy tail `[^@]*?(?=\n(?:@|def\s+test_|\Z))`: extend minimally over
non-`@` characters until the lookahead holds; the match ends at (and does not
consume) the lookahead position. -/
def lazyToLook : List Char → Option (List Char)
  | [] => if fixtureLook [] then some [] else none
  | c :: t =>
    if fixtureLook (c :: t) then some (c :: t)
    else if c = '@' then none
    else lazyToLook t

/-- Matcher for the main fixture pattern
`r'@pytest\.fixture[^\n]*\ndef\s+\w+\([^)]*\):[^@]*?(?=\n(?:@|def\s+test_|\Z))'`. -/
def fixtureMatch (s : List Char) : Option (List Char) :=
  match dropLit "@pytest.fixture".data s with
  | none => none
  | some t1 =>
    match t1.dropWhile (fun c => !(c = '\n')) with
    | '\n' :: t3 =>
      match dropLit "def".data t3 with
      | none => none
      | some t4 =>
        match t4 with
        | c :: _ =>
          if isPySpace c then
            let t5 := t4.dropWhile isPySpace
            match t5 with
            | d :: _ =>
              if isWordChar d then
                match t5.dropWhile isWordChar with
                | '(' :: t7 =>
                  match t7.dropWhile (fun c => !(c = ')')) with
                  | ')' :: ':' :: t10 => lazyToLook t10
                  | _ => none
                | _ => none
              else none
            | [] => none
          else none
        | [] => none
    | _ => none

/-- Matcher for
`r'@pytest\.fixture\(scope="session"\)\s*\ndef browser\(\):[^@]*?(?=...)'`. -/
def browserFixtureMatch (s : List Char) : Option (List Char) :=
  match dropLit "@pytest.fixture(scope=\"session\")".data s with
  | none => none
  | some t1 =>
    match wsRun t1 with
    | (some '\n', r) =>
      match dropLit "def browser():".data r with
      | some t2 => lazyToLook t2
      | none => none
    | _ => none

/-- Matcher for
`r'@pytest\.fixture[^\n]*\s*\ndef page\([^)]*\):[^@]*?(?=...)'`. -/
def pageFixtureMatch (s : List Char) : Option (List Char) :=
  match dropLit "@pytest.fixture".data s with
  | none => none
  | some t1 =>
    match wsRun (t1.dropWhile (fun c => !(c = '\n'))) with
    | (some '\n', r) =>
      match dropLit "def page(".data r with
      | some t3 =>
        match t3.dropWhile (fun c => !(c = ')')) with
        | ')' :: ':' :: t6 => lazyToLook t6
        | _ => none
      | none => none
    | _ => none

/-- `re.sub(r'\n{3,}', '\n\n', code)`: a run of three or more newlines becomes
exactly two.  `pending` counts the newlines of the current run; it is flushed
(capped at two when the run had length at least three) at the end of each
run. -/
def collapseNewlines (pending : Nat) : List Char → List Char
  | [] => List.replicate (if 3 ≤ pending then 2 else pending) '\n'
  | c :: t =>
    if c = '\n' then collapseNewlines (pending + 1) t
    else List.replicate (if 3 ≤ pending then 2 else pending) '\n' ++ c :: collapseNewlines 0 t

/-- The line-scan of `parse_response` (lines 176-186): keep lines until one
whose stripped form starts with `**`, `##` or `bash`. -/
def keepLine (l : List Char) : Bool :=
  let s := pyStripL l
  !(startsWithL "**".data s || startsWithL "##".data s || startsWithL "bash".data s)

/-- The cleaning pipeline of `ImplementationService.parse_response`
(src/services/implementation_service.py:130-186), i.e. everything before the
final `'import' not in code` fallback check. -/
def cleanResponse (response_text : String) : String :=
  let c0 := pyStripL (subAllFuel fenceMatch (response_text.data.length + 1) response_text.data)
  let c1 := truncAtTrigger trigHowToRunBold c0
  let c2 := truncAtTrigger trigHashHowTo c1
  let c3 := truncAtTrigger trigCommentHowToRun c2
  let c4 := truncAtTrigger trigDashes c3
  let c5 := truncAtTrigger trigNote c4
  let c6 := truncAtTrigger trigBashPip c5
  let c7 := subAllFuel bashBlockMatch (c6.length + 1) c6
  let c8 := subAllFuel anyBlockMatch (c7.length + 1) c7
  let c9 := subAllFuel fixtureMatch (c8.length + 1) c8
  let c10 := subAllFuel browserFixtureMatch (c9.length + 1) c9
  let c11 := subAllFuel pageFixtureMatch (c10.length + 1) c10
  let c12 := collapseNewlines 0 c11
  let kept := (splitOnNl c12).takeWhile keepLine
  String.mk (pyStripL (joinNl kept))

/-- `ImplementationService.get_default_code`
(src/services/implementation_service.py:194-216). -/
def get_default_code (page_structure : PageStructure) (test_cases : List TestCase) : String :=
  let url := page_structure.url.getD "https://example.com"
  let test_comments :=
    String.intercalate "\n    " (test_cases.map (fun tc => "# " ++ tc.title.getD "Test"))
  "from playwright.sync_api import Page, expect\n\ndef test_example(page: Page):\n    \"\"\"Generated test based on test cases\"\"\"\n    page.goto(\"" ++ url ++ "\")\n    \n    " ++ test_comments ++ "\n"

/-- `ImplementationService.parse_response`
(src/services/implementation_service.py:130-192): clean the model text; if the
result contains no `import`, substitute the default template. -/
def parse_response (response_text : String) (page_structure : PageStructure)
    (test_cases : List TestCase) : String :=
  let code := cleanResponse response_text
  if strContains code "import" then code
  else get_default_code page_structure test_cases

/-- One match attempt of `re.findall(r'def (test_\w+)\s*\(', code)` at the head
of `s` (used by `validate_structure`). -/
def testFuncAt (s : List Char) : Bool :=
  match dropLit "def test_".data s with
  | none => false
  | some t =>
    match t with
    | c :: _ =>
      isWordChar c &&
        (match (t.dropWhile isWordChar).dropWhile isPySpace with
         | '(' :: _ => true
         | _ => false)
    | [] => false

/-- Does a match of `m` start at some position of the string? -/
def existsMatchAt (m : List Char → Bool) : List Char → Bool
  | [] => m []
  | c :: t => m (c :: t) || existsMatchAt m t

/-- Whether the code contains at least one `def test_*(` function
(`re.findall(r'def (test_\w+)\s*\(', code)` is non-empty). -/
def hasTestFunction (s : List Char) : Bool :=
  existsMatchAt testFuncAt s

/-- `ImplementationService.validate_structure`
(src/services/implementation_service.py:251-296).  The four issue strings are
collected in source order; validity holds iff no issue mentioning
`No test functions` or `Missing Playwright` is present.  The semantic-locator
check of the source only logs and contributes no issue. -/
def validate_structure (code : String) : Bool × List String :=
  let issues :=
    (if strContains (pyLower code) "playwright" then [] else ["Missing Playwright import"]) ++
    (if hasTestFunction code.data then []
     else ["No test functions found (expected \x27def test_*\x27)"]) ++
    (if strContains code "page.goto" || strContains code ".goto(" then []
     else ["No page.goto() call - tests should navigate to target URL"]) ++
    (if strContains code "expect(" || strContains code "assert " then []
     else ["No assertions found - tests should verify outcomes"])
  ((issues.filter
      (fun i => strContains i "No test functions" || strContains i "Missing Playwright")).length == 0,
   issues)

/-- `ImplementationService.validate_syntax`
(src/services/implementation_service.py:221-249).  Python's `ast.parse` is the
language's own parser, an external collaborator: it is abstracted as an oracle
`astParse` returning `none` when the code parses and `some msg` with the
formatted error message otherwise.  The source returns `(True, [])` on
success and `(False, [formatted message])` on failure. -/
def validateWithAst (astParse : String → Option String) (code : String) :
    Bool × List String :=
  match astParse code with
  | none => (true, [])
  | some e => (false, [e])

/-- The critical-issue filter of the self-correction loop
(src/services/implementation_service.py:384):
`[i for i in structure_issues if 'Missing' in i or 'No test' in i]`. -/
def correctionFilter (issues : List String) : List String :=
  issues.filter (fun i => strContains i "Missing" || strContains i "No test")

/-- The result of one collaborator LLM call (`llm_call` in src/main.py:38-64):
response text, response time, token estimate. -/
structure LLMResult where
  text : String
  response_time : Rat
  tokens_used : Nat
deriving DecidableEq

/-- One entry of `correction_history`
(src/services/implementation_service.py:392-395). -/
structure CorrectionRecord where
  attempt : Nat
  issues : List String
deriving DecidableEq

/-- The mutable state threaded through the self-correction loop.  `code`,
`history`, `response_time` and `tokens_used` are the source's
`current_code`, `correction_history`, `total_response_time` and
`total_tokens`.  `calls` is a ghost counter of collaborator invocations made
so far (it doubles as the index into the oracle), and `trace` is a ghost list
of every accepted value of `current_code`, used to state the no-rollback
property. -/
structure LoopState where
  code : String
  history : List CorrectionRecord
  calls : Nat
  response_time : Rat
  tokens_used : Nat
  trace : List String
deriving DecidableEq

/-- The self-correction loop of `implement_with_self_correction`
(src/services/implementation_service.py:375-419).  `n` is the number of
remaining iterations (initially `MAX_CORRECTION_ATTEMPTS`), `a` the number of
completed iterations (so the recorded attempt number is `a + 1`).  The LLM
collaborator is an oracle over the invocation index; `none` models
`llm_call` raising, which the source catches and turns into a `break`. -/
def correctionLoop (astParse : String → Option String) (llm : Nat → Option LLMResult)
    (page_structure : PageStructure) (test_cases : List TestCase) :
    Nat → Nat → LoopState → LoopState
  | 0, _, st => st
  | n + 1, a, st =>
    let sv := validateWithAst astParse st.code
    let structureIssues := (validate_structure st.code).2
    let allIssues := sv.2 ++ correctionFilter structureIssues
    if sv.1 && allIssues.isEmpty then st
    else
      let st1 := { st with history := st.history ++ [CorrectionRecord.mk (a + 1) allIssues] }
      match llm st.calls with
      | none => { st1 with calls := st.calls + 1 }
      | some r =>
        let st2 := { st1 with
          calls := st.calls + 1,
          response_time := st1.response_time + r.response_time,
          tokens_used := st1.tokens_used + r.tokens_used }
        let corrected := parse_response r.text page_structure test_cases
        if corrected != "" && corrected != st.code then
          correctionLoop astParse llm page_structure test_cases n (a + 1)
            { st2 with code := corrected, trace := st2.trace ++ [corrected] }
        else st2

/-- One match attempt of `re.sub(r'https?://', '', url)` at the head of `s`. -/
def schemeMatch (s : List Char) : Option (List Char) :=
  if startsWithL "https://".data s then some (s.drop 8)
  else if startsWithL "http://".data s then some (s.drop 7)
  else none

/-- `ImplementationService.generate_test_filename`
(src/services/implementation_service.py:483-506); the timestamp is a clock
oracle. -/
def generate_test_filename (page_structure : PageStructure) (timestamp : String) : String :=
  let url := page_structure.url.getD "unknown"
  let noScheme := subAllFuel schemeMatch (url.data.length + 1) url.data
  let cleanName := (noScheme.map (fun c => if isWordChar c || c = '-' then c else '_')).take 30
  "test_" ++ String.mk cleanName ++ "_" ++ timestamp ++ ".py"

/-- The result dictionary of `implement_with_self_correction`
(src/services/implementation_service.py:434-446).  `final_parse_valid` and
`llm_calls`/`trace` are the source's `final_syntax_valid` key and the ghost
fields of `LoopState`; `file_path` is the generated file name (the
tests-directory prefix and the file write are file-system effects). -/
structure ImplementResult where
  code : String
  file_path : String
  response_time : Rat
  tokens_used : Nat
  attempts : Nat
  history : List CorrectionRecord
  final_parse_valid : Bool
  final_structure_valid : Bool
  final_issues : List String
  llm_calls : Nat
  trace : List String
deriving DecidableEq

/-- `ImplementationService.implement_with_self_correction`
(src/services/implementation_service.py:333-446): one initial generation call,
then the bounded correction loop, final validation and save.  `none` models
the initial `llm_call` raising (uncaught in the source). -/
def implement_with_self_correction (astParse : String → Option String)
    (llm : Nat → Option LLMResult) (timestamp : String)
    (test_cases : List TestCase) (page_structure : PageStructure) :
    Option ImplementResult :=
  match llm 0 with
  | none => none
  | some r0 =>
    let current := parse_response r0.text page_structure test_cases
    let st := correctionLoop astParse llm page_structure test_cases
      MAX_CORRECTION_ATTEMPTS 0
      { code := current, history := [], calls := 1, response_time := r0.response_time,
        tokens_used := r0.tokens_used, trace := [current] }
    let fs := validateWithAst astParse st.code
    let fstr := validate_structure st.code
    some {
      code := st.code,
      file_path := generate_test_filename page_structure timestamp,
      response_time := st.response_time,
      tokens_used := st.tokens_used,
      attempts := st.history.length,
      history := st.history,
      final_parse_valid := fs.1,
      final_structure_valid := fstr.1,
      final_issues := fstr.2,
      llm_calls := st.calls,
      trace := st.trace }

/-- `ImplementationService.implement`
(src/services/implementation_service.py:448-462) just delegates to the
self-correction implementation. -/
def implement (astParse : String → Option String) (llm : Nat → Option LLMResult)
    (timestamp : String) (test_cases : List TestCase)
    (page_structure : PageStructure) : Option ImplementResult :=
  implement_with_self_correction astParse llm timestamp test_cases page_structure

end ImplementationService

namespace DesignService

/-- A parsed JSON value, the possible results of `json.loads`. -/
inductive JsonVal where
  | null
  | bool (b : Bool)
  | num (q : Rat)
  | str (s : String)
  | arr (items : List JsonVal)
  | obj (fields : List (String × JsonVal))

/-- Matcher for `re.sub(r'```json|```', '', text)` of
`DesignService.parse_response` (src/services/design_service.py:165). -/
def jsonFenceMatch (s : List Char) : Option (List Char) :=
  if startsWithL "```json".data s then some (s.drop 7)
  else if startsWithL "```".data s then some (s.drop 3)
  else none

/-- The cleaning step of `DesignService.parse_response`: remove markdown code
fences, then strip. -/
def cleanResponse (response_text : String) : String :=
  pyStrip (String.mk (subAllFuel jsonFenceMatch (response_text.data.length + 1) response_text.data))

/-- `DesignService.get_default_test_cases`
(src/services/design_service.py:180-199): a list of exactly one generic test
case. -/
def get_default_test_cases : JsonVal :=
  .arr [.obj [
    ("id", .str "TC001"),
    ("title", .str "Verify successful login with valid credentials"),
    ("priority", .str "high"),
    ("type", .str "functional"),
    ("steps", .arr [.str "Navigate to page", .str "Enter valid username",
                    .str "Enter valid password", .str "Click login button"]),
    ("expectedResult", .str "User is logged in successfully"),
    ("elements", .arr [.str "#username", .str "#password", .str "#login-btn"])]]

/-- Python's `len` on a parsed JSON value: defined for sized values
(strings, arrays, objects), raising `TypeError` (`none`) for `int`/`float`,
`bool` and `None`, which have no `len()`. -/
def pyLen : JsonVal → Option Nat
  | .str s => some s.length
  | .arr items => some items.length
  | .obj fields => some fields.length
  | .num _ => none
  | .bool _ => none
  | .null => none

/-- `DesignService.parse_response` (src/services/design_service.py:148-178).
`json.loads` is an external collaborator, abstracted as the oracle `loads`
(`Except.error` models it raising).  After a successful parse the source
still evaluates `len(parsed)` for the log line at design_service.py:170;
for a scalar JSON value that call raises `TypeError`, which the catch-all
`except Exception` arm turns into the default test cases.  Both `except`
arms (`json.JSONDecodeError` and the catch-all) return the default test
cases, so the function itself never propagates an exception — hence the
`Except` result is shown to always be `Except.ok`. -/
def parse_response (loads : String → Except String JsonVal) (response_text : String) :
    Except String JsonVal :=
  let clean_text := cleanResponse response_text
  match loads clean_text with
  | .ok parsed =>
    match pyLen parsed with
    | some _ => .ok parsed
    | none => .ok get_default_test_cases
  | .error _ => .ok get_default_test_cases

end DesignService

namespace VerificationService

/-- The tests and evidence directories (`TESTS_DIR`, `EVIDENCE_DIR` of
src/services/verification_service.py:27-30); the machine-dependent
`BASE_DIR` prefix is elided. -/
def TESTS_DIR : String := "tests"

/-- See `TESTS_DIR`. -/
def EVIDENCE_DIR : String := "evidence"

/-- One per-test record of `parse_pytest_output`
(src/services/verification_service.py:648-655); the `error` key is absent
(`none`) until the failure-details pass fills it in. -/
structure TestRecord where
  name : String
  status : String
  passed : Bool
  error : Option String
deriving DecidableEq

/-- The `test_\w+\.py::test_\w+` part of the pytest output patterns, attempted
at the head of `s`; returns the matched name and the rest. -/
def testNameAt (s : List Char) : Option (String × List Char) :=
  match dropLit "test_".data s with
  | none => none
  | some t1 =>
    let w1 := t1.takeWhile isWordChar
    if w1.isEmpty then none
    else
      match dropLit ".py::test_".data (t1.drop w1.length) with
      | none => none
      | some t3 =>
        let w2 := t3.takeWhile isWordChar
        if w2.isEmpty then none
        else some ("test_" ++ String.mk w1 ++ ".py::test_" ++ String.mk w2, t3.drop w2.length)

/-- The `(PASSED|FAILED|SKIPPED|ERROR)` alternation, attempted at the head. -/
def statusAt (s : List Char) : Option (String × List Char) :=
  if startsWithL "PASSED".data s then some ("PASSED", s.drop 6)
  else if startsWithL "FAILED".data s then some ("FAILED", s.drop 6)
  else if startsWithL "SKIPPED".data s then some ("SKIPPED", s.drop 7)
  else if startsWithL "ERROR".data s then some ("ERROR", s.drop 5)
  else none

/-- One match attempt of
`r'(test_\w+\.py::test_\w+)\s+(PASSED|FAILED|SKIPPED|ERROR)'`
(src/services/verification_service.py:531 and 646) at the head of `s`;
returns the two groups and the rest of the input after the match. -/
def matchTestAt (s : List Char) : Option (String × String × List Char) :=
  match testNameAt s with
  | none => none
  | some (name, t4) =>
    let sp := t4.takeWhile isPySpace
    if sp.isEmpty then none
    else
      match statusAt (t4.drop sp.length) with
      | none => none
      | some (st, rest) => some (name, st, rest)

/-- `re.finditer` of the status-line pattern over the whole output
(src/services/verification_service.py:648): leftmost, non-overlapping
matches, scanning resuming after each match.  Fuel is the input length plus
one; every match consumes at least one character. -/
def findTestMatches : Nat → List Char → List TestRecord
  | 0, _ => []
  | _ + 1, [] => []
  | f + 1, c :: t =>
    match matchTestAt (c :: t) with
    | some (n, st, rest) =>
      { name := n, status := pyLower st, passed := st == "PASSED", error := none } ::
        findTestMatches f rest
    | none => findTestMatches f t

/-- The lookahead `(?=\n(?:FAILED|PASSED|=|$))` of the failure-details
pattern; without `re.MULTILINE`, `$` matches at the end of the string or just
before a trailing newline. -/
def lookFail (u : List Char) : Bool :=
  match u with
  | '\n' :: v =>
    startsWithL "FAILED".data v || startsWithL "PASSED".data v ||
      (match v with
       | '=' :: _ => true
       | [] => true
       | ['\n'] => true
       | _ => false)
  | _ => false

/-- The lazy `(.+?)` of the failure-details pattern (DOTALL): consume at least
one character, extending minimally until the lookahead holds; returns the
consumed message and the rest at the lookahead position. -/
def msgScan (acc : List Char) : List Char → Option (List Char × List Char)
  | [] => none
  | c :: t =>
    if lookFail t then some (acc ++ [c], t)
    else msgScan (acc ++ [c]) t

/-- One match attempt of
`r'FAILED (test_\w+\.py::test_\w+) - (.+?)(?=\n(?:FAILED|PASSED|=|$))'`
(src/services/verification_service.py:658) at the head of `s`. -/
def matchFailAt (s : List Char) : Option (String × String × List Char) :=
  match dropLit "FAILED ".data s with
  | none => none
  | some t0 =>
    match testNameAt t0 with
    | none => none
    | some (name, t4) =>
      match dropLit " - ".data t4 with
      | none => none
      | some t5 =>
        match msgScan [] t5 with
        | none => none
        | some (msg, rest) => some (name, String.mk msg, rest)

/-- `re.finditer` of the failure-details pattern; yields `(name, message)`
pairs, with the message stripped as in the source (line 661). -/
def findFailMatches : Nat → List Char → List (String × String)
  | 0, _ => []
  | _ + 1, [] => []
  | f + 1, c :: t =>
    match matchFailAt (c :: t) with
    | some (n, m, rest) => (n, pyStrip m) :: findFailMatches f rest
    | none => findFailMatches f t

/-- Attach an error message to the first record with the given name
(src/services/verification_service.py:663-667). -/
def setFirstErr (name msg : String) : List TestRecord → List TestRecord
  | [] => []
  | r :: rs =>
    if r.name == name then { r with error := some msg } :: rs
    else r :: setFirstErr name msg rs

/-- `VerificationService.parse_pytest_output`
(src/services/verification_service.py:631-669). -/
def parse_pytest_output (stdout : String) : List TestRecord :=
  let rs := findTestMatches (stdout.data.length + 1) stdout.data
  (findFailMatches (stdout.data.length + 1) stdout.data).foldl
    (fun acc p => setFirstErr p.1 p.2 acc) rs

/-- The outcome of the `subprocess.run` collaborator: normal completion with
captured output and exit code, `subprocess.TimeoutExpired`, or any other
exception. -/
inductive ProcOutcome where
  | completed (stdout stderr : String) (returncode : Int) (duration : Rat)
  | timedOut
  | raised (msg : String)
deriving DecidableEq

/-- The execution-result dictionary of `run_pytest_with_video`
(src/services/verification_service.py:453-496).  The `error` key is present
only on the exceptional paths (`none` otherwise). -/
structure ExecutionResult where
  success : Bool
  error : Option String
  stdout : String
  stderr : String
  return_code : Int
  duration : Rat
  video_files : List String
  log_file : Option String
  evidence_dir : String
  test_results : List TestRecord
deriving DecidableEq

/-- `VerificationService.run_pytest_with_video`
(src/services/verification_service.py:385-496).  The subprocess collaborator
`sub` receives the test file and the timeout value actually passed by the
source (600 seconds, line 432); the evidence files collected from the file
system are the oracles `videoFiles` / `logFile`.  On timeout or any other
exception the source returns a result dictionary instead of raising, with
`success = False` and an empty `test_results` list. -/
def run_pytest_with_video (sub : String → Nat → ProcOutcome)
    (videoFiles : List String) (logFile : Option String)
    (test_file : String) : ExecutionResult :=
  match sub test_file 600 with
  | .completed out err rc dur =>
    { success := rc == 0, error := none, stdout := out, stderr := err, return_code := rc,
      duration := dur, video_files := videoFiles, log_file := logFile,
      evidence_dir := EVIDENCE_DIR, test_results := parse_pytest_output out }
  | .timedOut =>
    { success := false, error := some "Test execution timed out after 5 minutes",
      stdout := "", stderr := "", return_code := -1, duration := 300, video_files := [],
      log_file := logFile, evidence_dir := EVIDENCE_DIR, test_results := [] }
  | .raised m =>
    { success := false, error := some m, stdout := "", stderr := "", return_code := -1,
      duration := 0, video_files := [], log_file := logFile,
      evidence_dir := EVIDENCE_DIR, test_results := [] }

/-- The evidence report written by the conftest session hooks and read back by
`get_latest_evidence_report` (src/services/verification_service.py:874-894);
a file-system oracle for the embedding (`none`: no parsable report). -/
structure EvReport where
  passed : Nat
  failed : Nat
  total : Nat
  details : List TestRecord
  report_path : String
deriving DecidableEq

/-- The server-sent events of `run_pytest_streaming`
(src/services/verification_service.py:498-629). -/
inductive StreamEvent where
  | start (test_file : String)
  | testResult (name status : String) (passed : Bool) (display_name : String)
  | error (msg : String)
  | complete (success : Bool) (duration : Rat) (passed failed total : Nat)
      (video_files : List String) (log_file : Option String) (report_path : String)
      (test_details : List TestRecord)
deriving DecidableEq

/-- `re.search` of the status-line pattern over one output line (line 549):
the groups of the leftmost match, if any. -/
def searchTestLine : List Char → Option (String × String)
  | [] => none
  | c :: t =>
    match matchTestAt (c :: t) with
    | some (n, st, _) => some (n, st)
    | none => searchTestLine t

/-- `name.split("::")[-1]` (line 565): the text after the last `::`. -/
def lastSeg : Nat → List Char → List Char
  | 0, s => s
  | f + 1, s =>
    match findAfterL "::".data s with
    | some r => lastSeg f r
    | none => s

/-- The `display_name` field of a `test_result` event. -/
def displayName (name : String) : String :=
  String.mk (lastSeg name.data.length name.data)

/-- The line loop of `run_pytest_streaming` (lines 544-567): one `test_result`
event per first sighting of a test name, deduplicated through `tests_seen`
(modelled as a list in insertion order).  Returns the events and the final
`tests_seen`. -/
def streamLines : List String → List String → List StreamEvent × List String
  | [], seen => ([], seen)
  | l :: ls, seen =>
    match searchTestLine l.data with
    | some (name, status) =>
      if name ∈ seen then streamLines ls seen
      else
        let res := streamLines ls (seen ++ [name])
        (StreamEvent.testResult name (pyLower status) (status == "PASSED") (displayName name)
          :: res.1, res.2)
    | none => streamLines ls seen

/-- The final statistics `(passed, failed, total, test_details)` of the
`complete` event (lines 600-610): taken from the evidence report when it has
details, otherwise computed by the fallback over `tests_seen` (whose
`'PASSED' in str(t)` test counts names containing `PASSED`, faithfully
embedded). -/
def completeStats (evr : Option EvReport) (seen : List String) :
    Nat × Nat × Nat × List TestRecord :=
  let passCnt := (seen.filter (fun t => strContains t "PASSED")).length
  match evr with
  | some r =>
    if r.details.isEmpty then (passCnt, seen.length - passCnt, seen.length, [])
    else (r.passed, r.failed, r.total, r.details)
  | none => (passCnt, seen.length - passCnt, seen.length, [])

/-- `evidence_report.get('report_path', '')` (line 624). -/
def reportPathOf (evr : Option EvReport) : String :=
  match evr with
  | some r => r.report_path
  | none => ""

/-- `VerificationService.run_pytest_streaming`
(src/services/verification_service.py:498-629).  The `start` event is yielded
before the subprocess collaborator is consulted; `proc` is the subprocess
oracle (`Except.error`: the spawn/read loop raised, reproducing the
`error`-event-and-return path); `evr`, `videoFiles`, `logFile` are
file-system oracles and `duration` the clock oracle. -/
def run_pytest_streaming (proc : Except String (List String × Int))
    (evr : Option EvReport) (videoFiles : List String) (logFile : Option String)
    (duration : Rat) (test_file : String) : List StreamEvent :=
  StreamEvent.start test_file ::
  match proc with
  | .error e => [StreamEvent.error e]
  | .ok (lines, rc) =>
    (streamLines lines []).1 ++
      [StreamEvent.complete (rc == 0) duration
        (completeStats evr (streamLines lines []).2).1
        (completeStats evr (streamLines lines []).2).2.1
        (completeStats evr (streamLines lines []).2).2.2.1
        videoFiles logFile (reportPathOf evr)
        (completeStats evr (streamLines lines []).2).2.2.2]

/-- Event classifier: is this a `start` event? -/
def isStartEv : StreamEvent → Bool
  | .start _ => true
  | _ => false

/-- Event classifier: is this a `complete` event? -/
def isCompleteEv : StreamEvent → Bool
  | .complete .. => true
  | _ => false

/-- Event classifier: is this a `test_result` event? -/
def isTestResultEv : StreamEvent → Bool
  | .testResult .. => true
  | _ => false

/-- Event classifier: is this a `test_result` event for the given test name? -/
def isTestResultFor (name : String) : StreamEvent → Bool
  | .testResult n _ _ _ => n == name
  | _ => false

/-- A file path, as `pathlib.Path(parent) / name`: directory part and final
component.  Modelling the path structurally avoids `pathlib`'s string
normalisation quirks, which are immaterial here. -/
structure PyPath where
  dir : String
  base : String
deriving DecidableEq

/-- Render a path as a string (for handing to the subprocess collaborator). -/
def PyPath.toStr (p : PyPath) : String := p.dir ++ "/" ++ p.base

/-- Split a name at its last dot: `some (before, after)` with
`name = before ++ '.' :: after` and `after` dot-free; `none` if no dot. -/
def splitLastDot : List Char → Option (List Char × List Char)
  | [] => none
  | c :: t =>
    match splitLastDot t with
    | some (b, a) => some (c :: b, a)
    | none => if c = '.' then some ([], t) else none

/-- `pathlib`'s `stem`/`suffix` rule: split at the last dot only when it is
neither the first nor the last character (`0 < i < len(name) - 1` in the
CPython implementation); otherwise the stem is the whole name. -/
def stemSuffix (l : List Char) : List Char × List Char :=
  match splitLastDot l with
  | some (b, a) => if b.isEmpty || a.isEmpty then (l, []) else (b, '.' :: a)
  | none => (l, [])

/-- `pathlib.Path(name).stem`. -/
def pyStem (name : String) : String :=
  String.mk (stemSuffix name.data).1

/-- `VerificationService.save_refactored_code`
(src/services/verification_service.py:836-872): derive
`{stem}_refactored_{timestamp}.py` next to the original and write the new
file there (the write is a file-system effect; the function's value is the
new path, as the source returns `str(new_path)`). -/
def save_refactored_code (code : String) (original_path : PyPath) (timestamp : String) :
    PyPath :=
  { dir := original_path.dir,
    base := pyStem original_path.base ++ "_refactored_" ++ timestamp ++ ".py" }

/-- The result of `refactor_tests`. -/
structure RefactorResult where
  code : String
  response_time : Rat
  tokens_used : Nat
deriving DecidableEq

/-- The line filter of `refactor_tests` (lines 819-826): stop at the first
line whose stripped form starts with `**` or `##`. -/
def refactorKeepLine (l : List Char) : Bool :=
  let s := pyStripL l
  !(startsWithL "**".data s || startsWithL "##".data s)

/-- `VerificationService.refactor_tests`
(src/services/verification_service.py:786-834): one LLM call (the prompt only
feeds the collaborator, so the oracle is the call's outcome), then the
response cleaning.  `none` models `llm_call` raising, which is uncaught
here. -/
def refactor_tests (llm : Option ImplementationService.LLMResult) : Option RefactorResult :=
  match llm with
  | none => none
  | some r =>
    let c1 := pyStripL r.text.data
    let c2 := pyStripL (subAllFuel ImplementationService.fenceMatch (c1.length + 1) c1)
    let kept := (splitOnNl c2).takeWhile refactorKeepLine
    some { code := String.mk (pyStripL (joinNl kept)),
           response_time := r.response_time, tokens_used := r.tokens_used }

/-- The shape of `session_state['last_verification']` as read by
`handle_critique`: `test_results.get('test_file', ...)` and
`test_results.get('execution_result', {})` — `none` models a missing key. -/
structure PriorResults where
  test_file : Option PyPath
  execution_result : Option ExecutionResult
deriving DecidableEq

/-- The `improvement` dictionary of `handle_critique`
(src/services/verification_service.py:1072-1075). -/
structure Improvement where
  original_passed : Nat
  new_passed : Nat
deriving DecidableEq

/-- The result of `handle_critique`
(src/services/verification_service.py:1065-1076). -/
structure CritiqueResult where
  refactored_code : String
  new_file_path : PyPath
  execution_result : ExecutionResult
  evidence_report : Option EvReport
  response_time : Rat
  tokens_used : Nat
  improvement : Improvement
deriving DecidableEq

/-- `VerificationService.handle_critique`
(src/services/verification_service.py:1020-1076): refactor via the LLM, save
the refactored code under a derived filename, re-run the test runner on the
new file (batch mode), and report the before/after pass counts.  `critique`,
`code` and `page_structure` influence only the prompt handed to the LLM
collaborator and are therefore absorbed by the `llm` oracle. -/
def handle_critique (llm : Option ImplementationService.LLMResult) (timestamp : String)
    (sub : String → Nat → ProcOutcome) (videoFiles : List String) (logFile : Option String)
    (evidence : Option EvReport) (critique code : String) (test_results : PriorResults)
    (page_structure : ImplementationService.PageStructure) : Option CritiqueResult :=
  match refactor_tests llm with
  | none => none
  | some rr =>
    let original_path := test_results.test_file.getD ⟨TESTS_DIR, "test_refactored.py"⟩
    let new_path := save_refactored_code rr.code original_path timestamp
    let new_execution := run_pytest_with_video sub videoFiles logFile new_path.toStr
    some {
      refactored_code := rr.code,
      new_file_path := new_path,
      execution_result := new_execution,
      evidence_report := evidence,
      response_time := rr.response_time,
      tokens_used := rr.tokens_used,
      improvement := {
        original_passed :=
          ((test_results.execution_result.elim [] ExecutionResult.test_results).filter
            (fun t => t.passed)).length,
        new_passed := (new_execution.test_results.filter (fun t => t.passed)).length } }

end VerificationService

namespace Helpers

/-- The `metrics` dictionary of the session state
(src/utils/helpers.py:57-61). -/
structure Metrics where
  avg_response_time : Rat
  tokens_used : Nat
  iteration_count : Nat
deriving DecidableEq

/-- `Helpers.update_metrics` (src/utils/helpers.py:65-94); the float
arithmetic of the source is modelled exactly over the rationals. -/
def update_metrics (current_metrics : Metrics) (response_time : Rat) (tokens : Nat) :
    Metrics :=
  let new_avg :=
    if current_metrics.iteration_count = 0 then response_time
    else (current_metrics.avg_response_time * (current_metrics.iteration_count : Rat)
            + response_time) / ((current_metrics.iteration_count : Rat) + 1)
  { avg_response_time := new_avg,
    tokens_used := current_metrics.tokens_used + tokens,
    iteration_count := current_metrics.iteration_count + 1 }

end Helpers

namespace Main

/-- The session state of src/main.py (`session_state`).  The UI-only keys
`messages`, `input`, `loading`, `browser_view` are omitted; `test_file_path`
and `last_verification` have no entry in the initial dictionary, modelled as
`none`.  Python's `not x` guards treat `None`, an empty list and an empty
string as absent, which coincides with `none` / `[]` / `""` here (an explore
result is never stored as an empty dictionary). -/
structure Session where
  phase : String
  page_structure : Option ImplementationService.PageStructure
  test_cases : List ImplementationService.TestCase
  generated_code : String
  test_file_path : Option VerificationService.PyPath
  last_verification : Option VerificationService.PriorResults
  metrics : Helpers.Metrics
deriving DecidableEq

/-- `Helpers.create_initial_state` (src/utils/helpers.py:41-63). -/
def create_initial_state : Session :=
  { phase := "idle", page_structure := none, test_cases := [], generated_code := "",
    test_file_path := none, last_verification := none,
    metrics := { avg_response_time := 0, tokens_used := 0, iteration_count := 0 } }

/-- The payload of a route response; `err` is the `{'error': msg}` body, the
other constructors summarise the success payloads by the fields the session
logic produces. -/
inductive ApiBody where
  | err (msg : String)
  | designOk (test_cases : List ImplementationService.TestCase)
  | implementOk (code : String) (file_path : String)
  | verifyOk (status : String)
deriving DecidableEq

/-- An HTTP response: status code and body. -/
structure HttpResponse where
  status : Nat
  body : ApiBody
deriving DecidableEq

/-- The result of `design_service.design` as consumed by the route handler
(src/main.py:260-268). -/
structure DesignResult where
  test_cases : List ImplementationService.TestCase
  response_time : Rat
  tokens_used : Nat
deriving DecidableEq

/-- The `/api/design` handler `design_tests` (src/main.py:253-280).  The
design service is an oracle (`Except.error e`: the service raised `e`, caught
by the handler's `except` and returned as a 500 with the session untouched).
The 400 guard runs before anything else. -/
def design_tests (svc : ImplementationService.PageStructure → Except String DesignResult)
    (st : Session) : HttpResponse × Session :=
  match st.page_structure with
  | none => (⟨400, .err "Please explore a URL first"⟩, st)
  | some ps =>
    match svc ps with
    | .error e => (⟨500, .err e⟩, st)
    | .ok r =>
      (⟨200, .designOk r.test_cases⟩,
       { st with test_cases := r.test_cases, phase := "designed",
                 metrics := Helpers.update_metrics st.metrics r.response_time r.tokens_used })

/-- The `/api/implement` handler `implement_tests` (src/main.py:283-316),
wired to the embedded `ImplementationService.implement`.  If the 400 guard
passes but `page_structure` is `None`, the service body raises
(`None.get(...)`) inside the `try`, surfacing as a 500 with the session
untouched; likewise when the initial LLM call raises. -/
def implement_tests (astParse : String → Option String)
    (llm : Nat → Option ImplementationService.LLMResult) (timestamp : String)
    (st : Session) : HttpResponse × Session :=
  if st.test_cases.isEmpty then (⟨400, .err "Please design test cases first"⟩, st)
  else
    match st.page_structure with
    | none =>
      (⟨500, .err "AttributeError: \x27NoneType\x27 object has no attribute \x27get\x27"⟩, st)
    | some ps =>
      match ImplementationService.implement astParse llm timestamp st.test_cases ps with
      | none => (⟨500, .err "llm_call raised"⟩, st)
      | some r =>
        (⟨200, .implementOk r.code r.file_path⟩,
         { st with generated_code := r.code,
                   test_file_path := some ⟨VerificationService.TESTS_DIR, r.file_path⟩,
                   phase := "implemented",
                   metrics := Helpers.update_metrics st.metrics r.response_time r.tokens_used })

/-- The result of `verification_service.verify` as consumed by the route
handler (src/main.py:329-345). -/
structure VerifyOutcome where
  report_status : String
  execution_result : VerificationService.ExecutionResult
  test_file : Option VerificationService.PyPath
  response_time : Rat
  tokens_used : Nat
deriving DecidableEq

/-- The `/api/verify` handler `verify_tests` (src/main.py:319-359).  The
verification service is an oracle; on success the handler stores the result
as `last_verification`, updates `test_file_path` and advances the phase. -/
def verify_tests
    (svc : String → List ImplementationService.TestCase →
      Option VerificationService.PyPath → Except String VerifyOutcome)
    (st : Session) : HttpResponse × Session :=
  if st.generated_code == "" then (⟨400, .err "Please implement tests first"⟩, st)
  else
    match svc st.generated_code st.test_cases st.test_file_path with
    | .error e => (⟨500, .err e⟩, st)
    | .ok r =>
      (⟨200, .verifyOk r.report_status⟩,
       { st with phase := "verified",
                 last_verification := some ⟨r.test_file, some r.execution_result⟩,
                 test_file_path := r.test_file,
                 metrics := Helpers.update_metrics st.metrics r.response_time r.tokens_used })

end Main

/-! ## Concrete inputs used by witnesses -/

/-- A structurally valid candidate that lacks navigation and assertions. -/
def c6Code : String :=
  "from playwright.sync_api import Page\ndef test_a(page):\n    pass"

/-- A loop state holding `c6Code` after the initial generation call. -/
def c6St : ImplementationService.LoopState :=
  { code := c6Code, history := [], calls := 1, response_time := 0, tokens_used := 0,
    trace := [c6Code] }

/-- A loop state whose candidate is the default template, which is exactly
what the extractor returns for the collaborator reply `"x"`. -/
def c7St : ImplementationService.LoopState :=
  { code := ImplementationService.get_default_code ⟨none⟩ [], history := [], calls := 0,
    response_time := 0, tokens_used := 0,
    trace := [ImplementationService.get_default_code ⟨none⟩ []] }

/-- The critique result produced by `handle_critique` on the concrete witness
inputs (LLM answers `"t"`, no prior execution result, runner times out). -/
def c4RW : VerificationService.CritiqueResult :=
  { refactored_code := "t",
    new_file_path := ⟨"tests", "test_refactored_refactored_TS.py"⟩,
    execution_result :=
      { success := false, error := some "Test execution timed out after 5 minutes",
        stdout := "", stderr := "", return_code := -1, duration := 300, video_files := [],
        log_file := none, evidence_dir := "evidence", test_results := [] },
    evidence_report := none, response_time := 0, tokens_used := 0,
    improvement := ⟨0, 0⟩ }

/-! ## General lemmas -/

/-- String concatenation concatenates the underlying character lists. -/
theorem strDataAppend (a b : String) : (a ++ b).data = a.data ++ b.data := rfl

/-- A prefix of `h` is a prefix of `h ++ t`. -/
theorem startsWithL_append {n h : List Char} (t : List Char)
    (hs : startsWithL n h = true) : startsWithL n (h ++ t) = true := by
  induction n generalizing h with
  | nil => simp [startsWithL]
  | cons p ps ih =>
    cases h with
    | nil => simp [startsWithL] at hs
    | cons c cs =>
      simp only [startsWithL, List.cons_append, Bool.and_eq_true] at hs ⊢
      exact ⟨hs.1, ih hs.2⟩

/-- The empty needle occurs in every haystack. -/
theorem containsL_nil (l : List Char) : containsL [] l = true := by
  cases l <;> simp [containsL, startsWithL]

/-- An occurrence in `h` is an occurrence in `h ++ t`. -/
theorem containsL_append_left {n h : List Char} (t : List Char)
    (hc : containsL n h = true) : containsL n (h ++ t) = true := by
  induction h with
  | nil =>
    cases n with
    | nil => exact containsL_nil t
    | cons p ps => simp [containsL, startsWithL] at hc
  | cons c cs ih =>
    simp only [containsL, List.cons_append, Bool.or_eq_true] at hc ⊢
    cases hc with
    | inl h1 => exact Or.inl (startsWithL_append t h1)
    | inr h2 => exact Or.inr (ih h2)

/-! ## C10 — the implementation extractor always returns code with an import -/

/-- C10: every value returned by `ImplementationService.parse_response`
contains the substring `import`: if the cleaned model text has no import the
extractor discards it and substitutes the default template, whose fixed
leading literal already contains a Playwright import. -/
theorem c10_parse_response_always_has_import
    (s : String) (ps : ImplementationService.PageStructure)
    (tcs : List ImplementationService.TestCase) :
    strContains (ImplementationService.parse_response s ps tcs) "import" = true := by
  unfold ImplementationService.parse_response
  cases h : strContains (ImplementationService.cleanResponse s) "import" with
  | true => simpa [h]
  | false =>
    simp only [h, Bool.false_eq_true, if_false]
    unfold ImplementationService.get_default_code strContains
    simp only [strDataAppend, List.append_assoc]
    exact containsL_append_left _ (by decide)

/-! ## C9 — the implementation extractor is not idempotent -/

set_option maxRecDepth 100000 in
/-- C9 counterexample: `parse_response` is not idempotent.  On the input
`"x"` (no import) the extractor returns the default template, which ends in
trailing whitespace; a second application strips that whitespace, so the two
results differ. -/
theorem c9_counterexample_not_idempotent :
    ImplementationService.parse_response
        (ImplementationService.parse_response "x" ⟨none⟩ []) ⟨none⟩ [] ≠
      ImplementationService.parse_response "x" ⟨none⟩ [] := by decide

/-- C9 amended: `parse_response` is idempotent on inputs whose cleaning is
stable (one more cleaning pass is a no-op) and whose cleaned form contains
an import — in particular on any already-clean generated code; in general
a second application can differ (see the counterexample). -/
theorem c9_amended_idempotent_on_clean_inputs
    (s : String) (ps : ImplementationService.PageStructure)
    (tcs : List ImplementationService.TestCase)
    (h1 : ImplementationService.cleanResponse (ImplementationService.cleanResponse s) =
      ImplementationService.cleanResponse s)
    (h2 : strContains (ImplementationService.cleanResponse s) "import" = true) :
    ImplementationService.parse_response
        (ImplementationService.parse_response s ps tcs) ps tcs =
      ImplementationService.parse_response s ps tcs := by
  simp only [ImplementationService.parse_response, h1, h2, if_true]

/-- Witness for the amended C9 at the concrete input `"import a"`. -/
theorem c9_amended_witness :
    ImplementationService.parse_response
        (ImplementationService.parse_response "import a" ⟨none⟩ []) ⟨none⟩ [] =
      ImplementationService.parse_response "import a" ⟨none⟩ [] :=
  c9_amended_idempotent_on_clean_inputs "import a" ⟨none⟩ [] (by decide) (by decide)

/-! ## C3 — the design extractor is total with a one-element fallback -/

/-- C3: `DesignService.parse_response` never propagates an exception: for
every `json.loads` behaviour and every input string the result is `ok`, and
it is either the successfully parsed JSON value or the documented fallback.
A parsed value is returned as-is exactly when it is sized (the source's
`len(parsed)` log call succeeds); an unsized scalar makes `len(parsed)`
raise `TypeError`, which the catch-all arm — like a `loads` failure — turns
into the fallback, a list of exactly one generic test case. -/
theorem c3_design_extractor_total
    (loads : String → Except String DesignService.JsonVal) (s : String) :
    (∃ v, DesignService.parse_response loads s = Except.ok v ∧
      ((loads (DesignService.cleanResponse s) = Except.ok v ∧ ∃ n, DesignService.pyLen v = some n) ∨
        v = DesignService.get_default_test_cases)) ∧
    (∀ v n, loads (DesignService.cleanResponse s) = Except.ok v →
      DesignService.pyLen v = some n →
      DesignService.parse_response loads s = Except.ok v) ∧
    (∀ v, loads (DesignService.cleanResponse s) = Except.ok v →
      DesignService.pyLen v = none →
      DesignService.parse_response loads s = Except.ok DesignService.get_default_test_cases) ∧
    (∀ e, loads (DesignService.cleanResponse s) = Except.error e →
      DesignService.parse_response loads s = Except.ok DesignService.get_default_test_cases) ∧
    (∃ tc, DesignService.get_default_test_cases = DesignService.JsonVal.arr [tc]) := by
  refine ⟨?_, fun v n hv hn => ?_, fun v hv hn => ?_, fun e he => ?_, ⟨_, rfl⟩⟩
  · cases h : loads (DesignService.cleanResponse s) with
    | ok v =>
      cases hn : DesignService.pyLen v with
      | some n =>
        exact ⟨v, by simp [DesignService.parse_response, h, hn], Or.inl ⟨rfl, n, hn⟩⟩
      | none =>
        exact ⟨DesignService.get_default_test_cases,
          by simp [DesignService.parse_response, h, hn], Or.inr rfl⟩
    | error e =>
      exact ⟨DesignService.get_default_test_cases,
        by simp [DesignService.parse_response, h], Or.inr rfl⟩
  · simp [DesignService.parse_response, hv, hn]
  · simp [DesignService.parse_response, hv, hn]
  · simp [DesignService.parse_response, he]

/-- Witness for C3: a raising `loads` and an unsized scalar value both yield
the default test cases; a sized value is returned as-is. -/
theorem c3_witness :
    DesignService.parse_response (fun _ => Except.error "boom") "not json" =
      Except.ok DesignService.get_default_test_cases ∧
    DesignService.parse_response (fun _ => Except.ok (DesignService.JsonVal.num 3)) "3" =
      Except.ok DesignService.get_default_test_cases ∧
    DesignService.parse_response (fun _ => Except.ok (DesignService.JsonVal.arr [])) "[]" =
      Except.ok (DesignService.JsonVal.arr []) :=
  ⟨(c3_design_extractor_total (fun _ => Except.error "boom") "not json").2.2.2.1 "boom" rfl,
   (c3_design_extractor_total (fun _ => Except.ok (DesignService.JsonVal.num 3)) "3").2.2.1
      (DesignService.JsonVal.num 3) rfl rfl,
   (c3_design_extractor_total (fun _ => Except.ok (DesignService.JsonVal.arr [])) "[]").2.1
      (DesignService.JsonVal.arr []) 0 rfl rfl⟩

/-! ## C2 — phase preconditions fail closed with a 400 and an unchanged session -/

/-- C2: each phase handler checks its precondition first; when the required
artifact is absent it returns a 400 client error with the documented message
and the session — phase included — is returned entirely unchanged. -/
theorem c2_phase_preconditions (st : Main.Session)
    (dsvc : ImplementationService.PageStructure → Except String Main.DesignResult)
    (astParse : String → Option String)
    (llm : Nat → Option ImplementationService.LLMResult) (ts : String)
    (vsvc : String → List ImplementationService.TestCase →
      Option VerificationService.PyPath → Except String Main.VerifyOutcome) :
    (st.page_structure = none →
      Main.design_tests dsvc st = (⟨400, .err "Please explore a URL first"⟩, st)) ∧
    (st.test_cases = [] →
      Main.implement_tests astParse llm ts st =
        (⟨400, .err "Please design test cases first"⟩, st)) ∧
    (st.generated_code = "" →
      Main.verify_tests vsvc st = (⟨400, .err "Please implement tests first"⟩, st)) := by
  refine ⟨fun h => ?_, fun h => ?_, fun h => ?_⟩
  · simp [Main.design_tests, h]
  · simp [Main.implement_tests, h]
  · simp [Main.verify_tests, h]

/-- Witness for C2 at the initial session state. -/
theorem c2_witness :
    Main.design_tests (fun _ => Except.error "e") Main.create_initial_state =
      (⟨400, .err "Please explore a URL first"⟩, Main.create_initial_state) ∧
    Main.implement_tests (fun _ => none) (fun _ => none) "TS" Main.create_initial_state =
      (⟨400, .err "Please design test cases first"⟩, Main.create_initial_state) ∧
    Main.verify_tests (fun _ _ _ => Except.error "e") Main.create_initial_state =
      (⟨400, .err "Please implement tests first"⟩, Main.create_initial_state) :=
  ⟨(c2_phase_preconditions Main.create_initial_state (fun _ => Except.error "e")
      (fun _ => none) (fun _ => none) "TS" (fun _ _ _ => Except.error "e")).1 rfl,
   (c2_phase_preconditions Main.create_initial_state (fun _ => Except.error "e")
      (fun _ => none) (fun _ => none) "TS" (fun _ _ _ => Except.error "e")).2.1 rfl,
   (c2_phase_preconditions Main.create_initial_state (fun _ => Except.error "e")
      (fun _ => none) (fun _ => none) "TS" (fun _ _ _ => Except.error "e")).2.2 rfl⟩

/-! ## C1 — the self-correction loop is bounded -/

/-- Helper: the loop makes at most one collaborator call per remaining
iteration. -/
theorem correctionLoop_calls_le (astP : String → Option String)
    (llm : Nat → Option ImplementationService.LLMResult)
    (ps : ImplementationService.PageStructure)
    (tcs : List ImplementationService.TestCase) :
    ∀ (n a : Nat) (st : ImplementationService.LoopState),
    (ImplementationService.correctionLoop astP llm ps tcs n a st).calls ≤ st.calls + n := by
  intro n
  induction n with
  | zero => intro a st; simp [ImplementationService.correctionLoop]
  | succ n ih =>
    intro a st
    simp only [ImplementationService.correctionLoop]
    split
    · exact Nat.le_add_right _ _
    · cases h : llm st.calls with
      | none =>
        show st.calls + 1 ≤ st.calls + (n + 1)
        omega
      | some r =>
        simp only [h]
        split
        · refine le_trans (ih _ _) ?_
          show st.calls + 1 + n ≤ st.calls + (n + 1)
          omega
        · show st.calls + 1 ≤ st.calls + (n + 1)
          omega

/-- C1: `implement_with_self_correction` invokes the LLM collaborator at most
`MAX_CORRECTION_ATTEMPTS = 3` times beyond the single initial generation
call, for every collaborator behaviour and every input. -/
theorem c1_self_correction_call_bound (astP : String → Option String)
    (llm : Nat → Option ImplementationService.LLMResult) (ts : String)
    (tcs : List ImplementationService.TestCase)
    (ps : ImplementationService.PageStructure) :
    ImplementationService.MAX_CORRECTION_ATTEMPTS = 3 ∧
    ((ImplementationService.implement_with_self_correction astP llm ts tcs ps).map
        ImplementationService.ImplementResult.llm_calls).getD 0 ≤
      1 + ImplementationService.MAX_CORRECTION_ATTEMPTS := by
  refine ⟨rfl, ?_⟩
  cases h : llm 0 with
  | none => simp [ImplementationService.implement_with_self_correction, h]
  | some r0 =>
    simp only [ImplementationService.implement_with_self_correction, h, Option.map_some',
      Option.getD_some]
    have := correctionLoop_calls_le astP llm ps tcs
      ImplementationService.MAX_CORRECTION_ATTEMPTS 0
      { code := ImplementationService.parse_response r0.text ps tcs, history := [], calls := 1,
        response_time := r0.response_time, tokens_used := r0.tokens_used,
        trace := [ImplementationService.parse_response r0.text ps tcs] }
    simpa [Nat.add_comm] using this

/-! ## C6 — only missing import / missing test function are critical -/

/-- C6: `validate_structure` is valid exactly when the Playwright import and a
test function are both present (missing navigation or assertions are
advisory), and on such code — when the syntax check also passes — one
iteration of the self-correction loop exits immediately, with no correction
requested and the state unchanged. -/
theorem c6_critical_issue_classification (code : String) :
    ((ImplementationService.validate_structure code).1 =
      (strContains (pyLower code) "playwright" &&
        ImplementationService.hasTestFunction code.data)) ∧
    (∀ (astP : String → Option String) (llm : Nat → Option ImplementationService.LLMResult)
       (ps : ImplementationService.PageStructure)
       (tcs : List ImplementationService.TestCase) (n a : Nat)
       (st : ImplementationService.LoopState),
       st.code = code → astP code = none →
       strContains (pyLower code) "playwright" = true →
       ImplementationService.hasTestFunction code.data = true →
       ImplementationService.correctionLoop astP llm ps tcs (n + 1) a st = st) := by
  constructor
  · unfold ImplementationService.validate_structure
    cases h1 : strContains (pyLower code) "playwright" <;>
      cases h2 : ImplementationService.hasTestFunction code.data <;>
        cases h3 : (strContains code "page.goto" || strContains code ".goto(") <;>
          cases h4 : (strContains code "expect(" || strContains code "assert ") <;>
            simp [h1, h2, h3, h4] <;> decide
  · intro astP llm ps tcs n a st hcode hast h1 h2
    subst hcode
    have hv : ImplementationService.validateWithAst astP st.code = (true, []) := by
      simp [ImplementationService.validateWithAst, hast]
    have hfilter : ImplementationService.correctionFilter
        (ImplementationService.validate_structure st.code).2 = [] := by
      unfold ImplementationService.validate_structure ImplementationService.correctionFilter
      cases h3 : (strContains st.code "page.goto" || strContains st.code ".goto(") <;>
        cases h4 : (strContains st.code "expect(" || strContains st.code "assert ") <;>
          simp [h1, h2, h3, h4] <;> decide
    simp [ImplementationService.correctionLoop, hv, hfilter]

set_option maxRecDepth 100000 in
/-- Witness for C6 on code that lacks both navigation and assertions. -/
theorem c6_witness :
    (ImplementationService.validate_structure c6Code).1 = true ∧
    ImplementationService.correctionLoop (fun _ => none) (fun _ => none) ⟨none⟩ [] 3 0 c6St =
      c6St := by
  constructor
  · rw [(c6_critical_issue_classification c6Code).1]; decide
  · exact (c6_critical_issue_classification c6Code).2 (fun _ => none) (fun _ => none)
      ⟨none⟩ [] 2 0 c6St rfl rfl (by decide) (by decide)

/-! ## C7 — early exit on no progress and no rollback -/

/-- C7: (a) if the extracted corrected code is empty or identical to the
current candidate, the loop stops at once: the candidate, the accepted-trace
and the call budget beyond the one consumed call are unchanged; (b) the loop
never rolls back: the returned code is always the most recently accepted
candidate (the last element of the ghost trace). -/
theorem c7_early_exit_and_no_rollback :
    (∀ (astP : String → Option String) (llm : Nat → Option ImplementationService.LLMResult)
       (ps : ImplementationService.PageStructure)
       (tcs : List ImplementationService.TestCase) (n a : Nat)
       (st : ImplementationService.LoopState) (r : ImplementationService.LLMResult),
       llm st.calls = some r →
       (ImplementationService.parse_response r.text ps tcs = "" ∨
         ImplementationService.parse_response r.text ps tcs = st.code) →
       ((ImplementationService.correctionLoop astP llm ps tcs (n + 1) a st).code = st.code ∧
        (ImplementationService.correctionLoop astP llm ps tcs (n + 1) a st).calls ≤ st.calls + 1 ∧
        (ImplementationService.correctionLoop astP llm ps tcs (n + 1) a st).trace = st.trace)) ∧
    (∀ (astP : String → Option String) (llm : Nat → Option ImplementationService.LLMResult)
       (ps : ImplementationService.PageStructure)
       (tcs : List ImplementationService.TestCase) (n a : Nat)
       (st : ImplementationService.LoopState),
       st.trace.getLast? = some st.code →
       (ImplementationService.correctionLoop astP llm ps tcs n a st).trace.getLast? =
         some (ImplementationService.correctionLoop astP llm ps tcs n a st).code) := by
  constructor
  · intro astP llm ps tcs n a st r hllm hd
    simp only [ImplementationService.correctionLoop]
    split
    · exact ⟨rfl, Nat.le_succ _, rfl⟩
    · rw [hllm]
      rcases hd with he | he <;> simp [he]
  · intro astP llm ps tcs n
    induction n with
    | zero => intro a st h; simpa [ImplementationService.correctionLoop] using h
    | succ n ih =>
      intro a st h
      simp only [ImplementationService.correctionLoop]
      split
      · exact h
      · cases hllm : llm st.calls with
        | none => simpa using h
        | some r =>
          simp only [hllm]
          split
          · exact ih _ _ (by simp [List.getLast?_concat])
          · simpa using h

set_option maxRecDepth 100000 in
/-- Witness for C7: the collaborator echoes code identical to the current
candidate, so the loop stops after that one call; the trace invariant holds
at the same state. -/
theorem c7_witness :
    ((ImplementationService.correctionLoop (fun _ => some "e") (fun _ => some ⟨"x", 0, 0⟩)
        ⟨none⟩ [] 3 0 c7St).code = c7St.code ∧
     (ImplementationService.correctionLoop (fun _ => some "e") (fun _ => some ⟨"x", 0, 0⟩)
        ⟨none⟩ [] 3 0 c7St).calls ≤ c7St.calls + 1 ∧
     (ImplementationService.correctionLoop (fun _ => some "e") (fun _ => some ⟨"x", 0, 0⟩)
        ⟨none⟩ [] 3 0 c7St).trace = c7St.trace) ∧
    (ImplementationService.correctionLoop (fun _ => some "e") (fun _ => some ⟨"x", 0, 0⟩)
        ⟨none⟩ [] 3 0 c7St).trace.getLast? =
      some (ImplementationService.correctionLoop (fun _ => some "e") (fun _ => some ⟨"x", 0, 0⟩)
        ⟨none⟩ [] 3 0 c7St).code :=
  ⟨c7_early_exit_and_no_rollback.1 (fun _ => some "e") (fun _ => some ⟨"x", 0, 0⟩)
      ⟨none⟩ [] 2 0 c7St ⟨"x", 0, 0⟩ rfl (Or.inr (by decide)),
   c7_early_exit_and_no_rollback.2 (fun _ => some "e") (fun _ => some ⟨"x", 0, 0⟩)
      ⟨none⟩ [] 3 0 c7St (by decide)⟩

/-! ## C5 — streaming events: one start, deduplicated results, one complete -/

/-- Helper: the line loop emits only `test_result` events, so any other event
classifier counts zero over its output. -/
theorem streamLines_countP_zero (p : VerificationService.StreamEvent → Bool)
    (hp : ∀ n s b d, p (.testResult n s b d) = false) :
    ∀ (ls seen : List String),
    ((VerificationService.streamLines ls seen).1).countP p = 0 := by
  intro ls
  induction ls with
  | nil => intro seen; simp [VerificationService.streamLines]
  | cons l ls ih =>
    intro seen
    simp only [VerificationService.streamLines]
    cases h : VerificationService.searchTestLine l.data with
    | none => simpa [h] using ih seen
    | some pr =>
      obtain ⟨name, status⟩ := pr
      by_cases hm : name ∈ seen
      · simpa [h, hm] using ih seen
      · simpa [h, hm, List.countP_cons, hp] using ih (seen ++ [name])

/-- Helper: a name already recorded in `tests_seen` is never emitted again. -/
theorem streamLines_seen_countP_zero (name : String) :
    ∀ (ls seen : List String), name ∈ seen →
    ((VerificationService.streamLines ls seen).1).countP
      (VerificationService.isTestResultFor name) = 0 := by
  intro ls
  induction ls with
  | nil => intro seen _; simp [VerificationService.streamLines]
  | cons l ls ih =>
    intro seen hmem
    simp only [VerificationService.streamLines]
    cases h : VerificationService.searchTestLine l.data with
    | none => simpa [h] using ih seen hmem
    | some pr =>
      obtain ⟨n, status⟩ := pr
      by_cases hm : n ∈ seen
      · simpa [h, hm] using ih seen hmem
      · have hne : (n == name) = false := by
          cases hb : n == name with
          | true => exact absurd (eq_of_beq hb ▸ hmem) hm
          | false => rfl
        simpa [h, hm, List.countP_cons, VerificationService.isTestResultFor, hne]
          using ih (seen ++ [n]) (List.mem_append_left _ hmem)

/-- Helper: each test name is emitted at most once by the line loop. -/
theorem streamLines_dedup (name : String) :
    ∀ (ls seen : List String),
    ((VerificationService.streamLines ls seen).1).countP
      (VerificationService.isTestResultFor name) ≤ 1 := by
  intro ls
  induction ls with
  | nil => intro seen; simp [VerificationService.streamLines]
  | cons l ls ih =>
    intro seen
    simp only [VerificationService.streamLines]
    cases h : VerificationService.searchTestLine l.data with
    | none => simpa [h] using ih seen
    | some pr =>
      obtain ⟨n, status⟩ := pr
      by_cases hm : n ∈ seen
      · simpa [h, hm] using ih seen
      · by_cases hn : n = name
        · subst hn
          have h0 := streamLines_seen_countP_zero n ls (seen ++ [n])
            (List.mem_append_right _ (List.mem_singleton_self n))
          simp [h, hm, List.countP_cons, VerificationService.isTestResultFor, h0]
        · have hne : (n == name) = false := by
            cases hb : n == name with
            | true => exact absurd (eq_of_beq hb) hn
            | false => rfl
          simpa [h, hm, List.countP_cons, VerificationService.isTestResultFor, hne]
            using ih (seen ++ [n])

/-- C5: for every subprocess output and exit code (no exception), the
streaming runner emits the `start` event first (before the subprocess oracle
is consulted), exactly one `start` and exactly one `complete` event, the
`complete` event — carrying the aggregate counts and evidence paths — last,
and at most one `test_result` event per distinct test name, no matter how
many output lines mention that name. -/
theorem c5_streaming_event_protocol (lines : List String) (rc : Int)
    (evr : Option VerificationService.EvReport) (vf : List String)
    (lf : Option String) (dur : Rat) (tf : String) :
    ((VerificationService.run_pytest_streaming (.ok (lines, rc)) evr vf lf dur tf).head? =
      some (.start tf)) ∧
    (VerificationService.run_pytest_streaming (.ok (lines, rc)) evr vf lf dur tf).countP
      VerificationService.isStartEv = 1 ∧
    (VerificationService.run_pytest_streaming (.ok (lines, rc)) evr vf lf dur tf).countP
      VerificationService.isCompleteEv = 1 ∧
    (∃ p f t rp td,
      (VerificationService.run_pytest_streaming (.ok (lines, rc)) evr vf lf dur tf).getLast? =
        some (.complete (rc == 0) dur p f t vf lf rp td)) ∧
    (∀ name,
      (VerificationService.run_pytest_streaming (.ok (lines, rc)) evr vf lf dur tf).countP
        (VerificationService.isTestResultFor name) ≤ 1) := by
  have hsh : VerificationService.run_pytest_streaming (.ok (lines, rc)) evr vf lf dur tf =
      .start tf :: ((VerificationService.streamLines lines []).1 ++
        [.complete (rc == 0) dur
          (VerificationService.completeStats evr (VerificationService.streamLines lines []).2).1
          (VerificationService.completeStats evr
            (VerificationService.streamLines lines []).2).2.1
          (VerificationService.completeStats evr
            (VerificationService.streamLines lines []).2).2.2.1
          vf lf (VerificationService.reportPathOf evr)
          (VerificationService.completeStats evr
            (VerificationService.streamLines lines []).2).2.2.2]) := rfl
  rw [hsh]
  refine ⟨rfl, ?_, ?_, ?_, ?_⟩
  · simp [List.countP_cons, List.countP_append, VerificationService.isStartEv,
      streamLines_countP_zero VerificationService.isStartEv (fun _ _ _ _ => rfl)]
  · simp [List.countP_cons, List.countP_append, VerificationService.isCompleteEv,
      streamLines_countP_zero VerificationService.isCompleteEv (fun _ _ _ _ => rfl)]
  · refine
      ⟨(VerificationService.completeStats evr (VerificationService.streamLines lines []).2).1,
       (VerificationService.completeStats evr (VerificationService.streamLines lines []).2).2.1,
       (VerificationService.completeStats evr
         (VerificationService.streamLines lines []).2).2.2.1,
       VerificationService.reportPathOf evr,
       (VerificationService.completeStats evr
         (VerificationService.streamLines lines []).2).2.2.2, ?_⟩
    rw [← List.cons_append]
    exact List.getLast?_concat _
  · intro name
    have hd := streamLines_dedup name lines []
    simp [List.countP_cons, List.countP_append, VerificationService.isTestResultFor]
    omega

/-! ## C8 — batch execution: hard 600 s bound and total error handling -/

/-- C8: batch execution consults the subprocess collaborator only at the hard
600-second timeout (so its result depends on the runner's behaviour only at
that bound); a timeout or any other subprocess exception yields a result —
not an exception — with `success = false` and an empty `test_results` list
(no counts inferred from partial output); and a completed run derives
`success` from the exit code with `test_results` parsed from stdout, so a
non-zero exit with no parsable test lines still yields a report with empty
details. -/
theorem c8_batch_timeout_and_error_handling
    (sub : String → Nat → VerificationService.ProcOutcome)
    (vf : List String) (lf : Option String) (tf : String) :
    (∀ sub' : String → Nat → VerificationService.ProcOutcome,
      sub tf 600 = sub' tf 600 →
      VerificationService.run_pytest_with_video sub vf lf tf =
        VerificationService.run_pytest_with_video sub' vf lf tf) ∧
    (sub tf 600 = .timedOut →
      (VerificationService.run_pytest_with_video sub vf lf tf).success = false ∧
      (VerificationService.run_pytest_with_video sub vf lf tf).test_results = [] ∧
      (VerificationService.run_pytest_with_video sub vf lf tf).error =
        some "Test execution timed out after 5 minutes") ∧
    (∀ m, sub tf 600 = .raised m →
      (VerificationService.run_pytest_with_video sub vf lf tf).success = false ∧
      (VerificationService.run_pytest_with_video sub vf lf tf).test_results = []) ∧
    (∀ out err rc dur, sub tf 600 = .completed out err rc dur →
      (VerificationService.run_pytest_with_video sub vf lf tf).success = (rc == 0) ∧
      (VerificationService.run_pytest_with_video sub vf lf tf).test_results =
        VerificationService.parse_pytest_output out) := by
  refine ⟨fun sub' h => ?_, fun h => ?_, fun m h => ?_, fun out err rc dur h => ?_⟩
  · unfold VerificationService.run_pytest_with_video
    rw [h]
  · simp [VerificationService.run_pytest_with_video, h]
  · simp [VerificationService.run_pytest_with_video, h]
  · simp [VerificationService.run_pytest_with_video, h]

/-- Witness for C8 on the three outcomes of a concrete runner. -/
theorem c8_witness :
    (VerificationService.run_pytest_with_video (fun _ _ => .timedOut) [] none "t.py").success =
      false ∧
    (VerificationService.run_pytest_with_video (fun _ _ => .timedOut) [] none
      "t.py").test_results = [] ∧
    (VerificationService.run_pytest_with_video (fun _ _ => .raised "oops") [] none
      "t.py").test_results = [] ∧
    (VerificationService.run_pytest_with_video (fun _ _ => .completed "no tests ran" "" 2 1)
      [] none "t.py").success = ((2 : Int) == 0) :=
  ⟨((c8_batch_timeout_and_error_handling (fun _ _ => .timedOut) [] none "t.py").2.1 rfl).1,
   ((c8_batch_timeout_and_error_handling (fun _ _ => .timedOut) [] none "t.py").2.1 rfl).2.1,
   ((c8_batch_timeout_and_error_handling (fun _ _ => .raised "oops") [] none "t.py").2.2.1
      "oops" rfl).2,
   ((c8_batch_timeout_and_error_handling (fun _ _ => .completed "no tests ran" "" 2 1)
      [] none "t.py").2.2.2 "no tests ran" "" 2 1 rfl).1⟩

/-! ## C4 — critique: fresh filename, fresh execution, fresh pass count -/

/-- Helper: `splitLastDot` really splits at a dot. -/
theorem splitLastDot_spec :
    ∀ (l b a : List Char), VerificationService.splitLastDot l = some (b, a) →
    l = b ++ '.' :: a := by
  intro l
  induction l with
  | nil => intro b a h; simp [VerificationService.splitLastDot] at h
  | cons c t ih =>
    intro b a h
    simp only [VerificationService.splitLastDot] at h
    cases hs : VerificationService.splitLastDot t with
    | some pr =>
      obtain ⟨b', a'⟩ := pr
      rw [hs] at h
      simp only [Option.some.injEq, Prod.mk.injEq] at h
      obtain ⟨hb, ha⟩ := h
      subst hb; subst ha
      simpa using congrArg (c :: ·) (ih b' a' hs)
    | none =>
      rw [hs] at h
      by_cases hc : c = '.'
      · simp only [hc, if_true, Option.some.injEq, Prod.mk.injEq] at h
        obtain ⟨hb, ha⟩ := h
        subst hb; subst ha
        simp [hc]
      · simp [hc] at h

/-- Helper: stem and suffix reassemble the name. -/
theorem stemSuffix_append (l : List Char) :
    (VerificationService.stemSuffix l).1 ++ (VerificationService.stemSuffix l).2 = l := by
  unfold VerificationService.stemSuffix
  cases hs : VerificationService.splitLastDot l with
  | none => simp
  | some pr =>
    obtain ⟨b, a⟩ := pr
    have hspec := splitLastDot_spec l b a hs
    by_cases he : b.isEmpty || a.isEmpty <;> simp [he, hspec]

/-- Helper: the suffix is empty or starts with a dot. -/
theorem stemSuffix_snd_shape (l : List Char) :
    (VerificationService.stemSuffix l).2 = [] ∨
      ∃ r, (VerificationService.stemSuffix l).2 = '.' :: r := by
  unfold VerificationService.stemSuffix
  cases hs : VerificationService.splitLastDot l with
  | none => left; rfl
  | some pr =>
    obtain ⟨b, a⟩ := pr
    by_cases he : b.isEmpty || a.isEmpty
    · left; simp [he]
    · right; exact ⟨a, by simp [he]⟩

/-- Helper, list level: appending `_refactored_{ts}.py` to the stem never
reproduces the original name. -/
theorem refactored_base_data_ne (bl : List Char) (ts : String) :
    (VerificationService.stemSuffix bl).1 ++
      ("_refactored_".data ++ (ts.data ++ ".py".data)) ≠ bl := by
  intro h
  conv at h => rhs; rw [← stemSuffix_append bl]
  have h2 := List.append_cancel_left h
  rcases stemSuffix_snd_shape bl with hsuf | ⟨r, hsuf⟩
  · rw [hsuf] at h2
    have h3 := congrArg List.head? h2
    rw [show List.head? ("_refactored_".data ++ (ts.data ++ ".py".data)) = some '_' from rfl]
      at h3
    simp at h3
  · rw [hsuf] at h2
    have h3 := congrArg List.head? h2
    rw [show List.head? ("_refactored_".data ++ (ts.data ++ ".py".data)) = some '_' from rfl]
      at h3
    exact absurd (Option.some.inj h3) (by decide)

/-- Helper: the refactored file name differs from the original. -/
theorem refactored_base_ne (base ts : String) :
    VerificationService.pyStem base ++ "_refactored_" ++ ts ++ ".py" ≠ base := by
  intro h
  apply refactored_base_data_ne base.data ts
  have hd := congrArg String.data h
  simpa [strDataAppend, List.append_assoc, VerificationService.pyStem] using hd

/-- C4: whenever `handle_critique` returns, the regenerated code was saved
under a derived filename in the original's directory that never equals the
original path (so the original is not overwritten); the returned execution
result is exactly a fresh batch run of the new file; `improvement.new_passed`
is computed exclusively from that fresh run's test results; and
`improvement.original_passed` comes from the pre-existing report. -/
theorem c4_critique_fresh_execution
    (llm : Option ImplementationService.LLMResult) (ts : String)
    (sub : String → Nat → VerificationService.ProcOutcome)
    (vf : List String) (lf : Option String) (ev : Option VerificationService.EvReport)
    (critique code : String) (tr : VerificationService.PriorResults)
    (ps : ImplementationService.PageStructure) (r : VerificationService.CritiqueResult)
    (h : VerificationService.handle_critique llm ts sub vf lf ev critique code tr ps =
      some r) :
    r.new_file_path ≠
      tr.test_file.getD ⟨VerificationService.TESTS_DIR, "test_refactored.py"⟩ ∧
    r.new_file_path.dir =
      (tr.test_file.getD ⟨VerificationService.TESTS_DIR, "test_refactored.py"⟩).dir ∧
    r.execution_result =
      VerificationService.run_pytest_with_video sub vf lf r.new_file_path.toStr ∧
    r.improvement.new_passed =
      ((VerificationService.run_pytest_with_video sub vf lf
          r.new_file_path.toStr).test_results.filter (fun t => t.passed)).length ∧
    r.improvement.original_passed =
      ((tr.execution_result.elim [] VerificationService.ExecutionResult.test_results).filter
        (fun t => t.passed)).length := by
  cases llm with
  | none => simp [VerificationService.handle_critique, VerificationService.refactor_tests] at h
  | some l =>
    simp only [VerificationService.handle_critique, VerificationService.refactor_tests,
      Option.some.injEq] at h
    subst h
    refine ⟨?_, rfl, rfl, rfl, rfl⟩
    intro heq
    have hbase := congrArg VerificationService.PyPath.base heq
    simp only [VerificationService.save_refactored_code] at hbase
    exact refactored_base_ne
      (tr.test_file.getD ⟨VerificationService.TESTS_DIR, "test_refactored.py"⟩).base ts hbase

set_option maxRecDepth 100000 in
/-- Witness for C4 on concrete inputs (runner times out, no prior report). -/
theorem c4_witness :
    c4RW.new_file_path ≠ (⟨"tests", "test_refactored.py"⟩ : VerificationService.PyPath) ∧
    c4RW.improvement.new_passed =
      ((VerificationService.run_pytest_with_video (fun _ _ => .timedOut) [] none
          c4RW.new_file_path.toStr).test_results.filter (fun t => t.passed)).length := by
  have H := c4_critique_fresh_execution (some ⟨"t", 0, 0⟩) "TS" (fun _ _ => .timedOut)
    [] none none "c" "k" ⟨none, none⟩ ⟨none⟩ c4RW (by decide)
  exact ⟨H.1, H.2.2.2.1⟩
